import Mathlib

/-!
Verification of the bounded-duration child-process supervisor in
`src/code/child_process_wait_or_kill/src/main.rs`.

The source has two functions:

  * `wait_on_output(out: ChildStdout)` — a drain loop: repeatedly calls
    `out.read(&mut buf)`; it stops when a read returns `Err(_)` (the
    `while let Ok(n)` pattern fails) or returns `Ok(0)` (end-of-stream),
    and otherwise prints the `n` bytes just read and continues.

  * `wait_or_kill(cmd: &mut Command, max: Duration)` — spawns the child
    with piped stdout (`expect("Cannot spawn child")` on failure), takes
    the stdout channel, spawns a killer thread that sleeps `max`, calls
    `child.kill().expect("Cannot kill child process")`, then prints
    `child.wait()`; meanwhile the main thread runs `wait_on_output` and
    finally joins the killer thread (`expect("join fail")`).  The function
    returns `()`.

The drain loop is embedded as a pure function over the sequence of results
the OS returns from `read`.  The two-thread timing behaviour is embedded
as a deterministic timed trace over an abstract description of the child's
behaviour (spawn success, natural exit time, exit code, output schedule,
kill success, read failure time): the killer thread's actions happen at
time `max` by construction, the drain finishes when the pipe reaches
end-of-stream or a read fails, and the join makes the return time the
maximum of the two threads' completion times.
-/

/-- A byte value (`u8` in the source) modelled as a natural number. -/
abbrev Byte := Nat

/-- Result of one `out.read(&mut buf)` call in `wait_on_output`:
either `Ok(n)` delivering the `n` bytes `buf[..n]`, or `Err(_)`. -/
inductive ReadResult where
  | ok (chunk : List Byte)
  | err
deriving DecidableEq, Repr

/-- The bytes a read delivered (`buf[..n]`); an errored read delivers none. -/
def chunkOf : ReadResult → List Byte
  | .ok c => c
  | .err => []

/-- `true` exactly when this read result makes the source loop stop:
`Err(_)` breaks the `while let Ok(n)`and `Ok(0)` hits the `n == 0` break. -/
def isStop : ReadResult → Bool
  | .err => true
  | .ok c => c.isEmpty

/-- Embedding of `wait_on_output`: given the sequence of results the OS
returns from successive `read` calls, the bytes the loop observes (prints),
in order.  The loop body runs for each `Ok(n)` with `n ≠ 0` and stops at
the first `Err(_)` or `Ok(0)`. -/
def wait_on_output : List ReadResult → List Byte
  | [] => []
  | .err :: _ => []
  | .ok c :: rest => if c.isEmpty then [] else c ++ wait_on_output rest

/-- The chunks the loop actually consumed: every `Ok` chunk strictly before
the first stopping read result. -/
def consumedChunks : List ReadResult → List (List Byte)
  | [] => []
  | .err :: _ => []
  | .ok c :: rest => if c.isEmpty then [] else c :: consumedChunks rest

/-- `initSeg a b`: the byte sequence `a` is an initial segment (byte-exact
prefix) of the byte sequence `b`. -/
def initSeg (a b : List Byte) : Prop := ∃ t, a ++ t = b

theorem wait_on_output_eq_join (reads : List ReadResult) :
    wait_on_output reads = (consumedChunks reads).flatten := by
  induction reads with
  | nil => rfl
  | cons r rest ih =>
    cases r with
    | err => rfl
    | ok c =>
      by_cases hc : c.isEmpty
      · simp [wait_on_output, consumedChunks, hc]
      · simp [wait_on_output, consumedChunks, hc, ih]

theorem consumed_initSeg_all (reads : List ReadResult) :
    initSeg (consumedChunks reads).flatten (reads.map chunkOf).flatten := by
  induction reads with
  | nil => exact ⟨[], rfl⟩
  | cons r rest ih =>
    cases r with
    | err => exact ⟨(rest.map chunkOf).flatten, by simp [consumedChunks, chunkOf]⟩
    | ok c =>
      by_cases hc : c.isEmpty
      · exact ⟨c ++ (rest.map chunkOf).flatten, by simp [consumedChunks, chunkOf, hc]⟩
      · obtain ⟨t, ht⟩ := ih
        exact ⟨t, by simp [consumedChunks, chunkOf, hc, List.append_assoc, ht]⟩

theorem initSeg_trans {a b c : List Byte} (h1 : initSeg a b) (h2 : initSeg b c) :
    initSeg a c := by
  obtain ⟨t1, ht1⟩ := h1
  obtain ⟨t2, ht2⟩ := h2
  exact ⟨t1 ++ t2, by rw [← List.append_assoc, ht1, ht2]⟩

/-- Abstract description of one run's environment: the child's behaviour
and the OS responses, over discrete time (a `Duration` is a `Nat`). -/
structure ChildWorld where
  /-- Whether `cmd.spawn()` succeeds (the executable exists and the OS
  creates the process). -/
  spawnOk : Bool
  /-- Whether the OS accepts the `child.kill()` request. -/
  killOk : Bool
  /-- The time at which the child exits on its own if it is never killed. -/
  natExit : Nat
  /-- The child's own exit code when it exits naturally. -/
  exitCode : Int
  /-- The full byte sequence the child would write if run to completion. -/
  outBytes : List Byte
  /-- How many bytes of `outBytes` the child has written by time `t`
  (its output schedule; unconstrained, so it covers schedules that write
  far more than any pipe buffer holds). -/
  writtenBy : Nat → Nat
  /-- If `some t`, a read from the pipe fails at time `t` (an I/O error
  mid-drain); `none` means every read succeeds. -/
  readErrAt : Option Nat

/-- Exit status as collected by `child.wait()`: natural exit with a code,
or termination by a signal (`SIGKILL = 9` for `kill()`). -/
inductive WaitStatus where
  | exited (code : Int)
  | signaled (sig : Nat)
deriving DecidableEq, Repr

/-- The observable trace of one `wait_or_kill` run. -/
structure RunTrace where
  /-- The panic message that escapes `wait_or_kill` to its caller, if any
  (the source uses `expect`, so failures panic instead of returning). -/
  panicked : Option String
  /-- How many times `spawn` was called (the source calls it once, with
  no retry on failure). -/
  spawnCalls : Nat
  /-- The times at which `child.kill()` was issued, in order. -/
  killTimes : List Nat
  /-- The status `child.wait()` collected (printed by the killer thread),
  if the wait was reached. -/
  waitedStatus : Option WaitStatus
  /-- The time at which the child was reaped by `child.wait()`, if ever. -/
  reapTime : Option Nat
  /-- The time at which the drain loop (`wait_on_output`) finished, if the
  drain ran. -/
  drainEnd : Option Nat
  /-- The bytes the drain observed before it finished. -/
  captured : List Byte
  /-- Whether the drain finished because a read failed (rather than
  end-of-stream). -/
  readErrorHit : Bool
  /-- Whether the child process is still running after `wait_or_kill`
  returns (or panics). -/
  childRunningAfter : Bool
  /-- The time at which `wait_or_kill` returns normally to its caller,
  if it does not panic. -/
  returnTime : Option Nat

/-- The time at which the child stops running: it exits naturally at
`natExit`, unless a successful kill at the deadline stops it first.
When the kill is rejected the child runs until its natural exit. -/
def stopTimeOf (w : ChildWorld) (maxD : Nat) : Nat :=
  if w.killOk then min w.natExit maxD else w.natExit

/-- The time at which the drain loop finishes: at the pipe's end-of-stream
(once the child has stopped and the buffered bytes are read), or earlier
at a failing read, whichever comes first. -/
def drainEndOf (w : ChildWorld) (maxD : Nat) : Nat :=
  match w.readErrAt with
  | some t => min t (stopTimeOf w maxD)
  | none => stopTimeOf w maxD

/-- Embedding of `wait_or_kill` as the trace of one run, from the source:

  * spawn failure panics `"Cannot spawn child"` before any thread starts;
  * the killer thread sleeps `maxD`, issues `kill` at time `maxD`
    unconditionally, panics `"Cannot kill child process"` if the OS
    rejects it, and otherwise collects `child.wait()` — the child's own
    exit code if it had already exited, else death by `SIGKILL`;
  * the main thread drains until end-of-stream or a failing read, then
    joins the killer thread; a panicked killer makes the join panic
    `"join fail"`; otherwise `wait_or_kill` returns `()` at the later of
    the two threads' completion times. -/
def wait_or_kill (w : ChildWorld) (maxD : Nat) : RunTrace :=
  if w.spawnOk then
    let dEnd := drainEndOf w maxD
    { panicked := if w.killOk then none else some "join fail"
      spawnCalls := 1
      killTimes := [maxD]
      waitedStatus :=
        if w.killOk then
          some (if w.natExit ≤ maxD then .exited w.exitCode else .signaled 9)
        else none
      reapTime := if w.killOk then some maxD else none
      drainEnd := some dEnd
      captured := w.outBytes.take (w.writtenBy dEnd)
      readErrorHit :=
        match w.readErrAt with
        | some t => decide (t < stopTimeOf w maxD)
        | none => false
      childRunningAfter := !w.killOk && decide (max dEnd maxD < w.natExit)
      returnTime := if w.killOk then some (max dEnd maxD) else none }
  else
    { panicked := some "Cannot spawn child"
      spawnCalls := 1
      killTimes := []
      waitedStatus := none
      reapTime := none
      drainEnd := none
      captured := []
      readErrorHit := false
      childRunningAfter := false
      returnTime := none }

/-- The spec's `Outcome` record (§3 of the spec), for comparison with what
the source actually hands back to its caller. -/
structure Outcome where
  exit_status : Option Int
  captured_output : List Byte
  timed_out : Bool
deriving DecidableEq, Repr

/-- The spec's error taxonomy (§7 of the spec), for comparison with what
the source actually hands back to its caller. -/
inductive SupervisionError where
  | spawnError
  | outputReadError (partialOut : List Byte)
  | terminationError
  | reapError
deriving DecidableEq, Repr

/-- The `Outcome` value that `wait_or_kill` returns to its caller.  The
source function's return type is `()`: it returns no outcome record on
any run, so this is constantly `none`. -/
def returned_outcome (_ : RunTrace) : Option Outcome := none

/-- The error value that `wait_or_kill` returns to its caller.  The source
function's return type is `()` and every failure path is an `expect`
panic, so no error value is ever returned: this is constantly `none`. -/
def returned_error (_ : RunTrace) : Option SupervisionError := none

/-- A run whose child would run for 10 time units against a deadline of 2
(spawn and kill both succeed, no read error). -/
def worldC1 : ChildWorld :=
  { spawnOk := true, killOk := true, natExit := 10, exitCode := 0,
    outBytes := [104, 105], writtenBy := fun _ => 0, readErrAt := none }

/-- C1 (counterexample): at a run whose child runs past the deadline, the kill
is issued at the deadline and the child is stopped, but `wait_or_kill` returns
`()` — it hands back no outcome record, so no outcome is marked
`timed_out = true` and the claim as stated fails. -/
theorem kill_at_deadline_timed_out_cex :
    ¬ ((wait_or_kill worldC1 2).killTimes = [2] ∧
       (wait_or_kill worldC1 2).childRunningAfter = false ∧
       ∃ oc, returned_outcome (wait_or_kill worldC1 2) = some oc ∧
         oc.timed_out = true) := by
  intro h
  obtain ⟨oc, hoc, _⟩ := h.2.2
  simp [returned_outcome] at hoc

/-- C1 (amended): for every run that returns (does not panic) whose child runs
longer than the deadline, the kill is issued exactly when the deadline fires
and the child is no longer running after the call returns; the source returns
no outcome, so no `timed_out` flag is reported to the caller. -/
theorem kill_at_deadline (w : ChildWorld) (maxD : Nat)
    (hspawn : w.spawnOk = true)
    (hret : (wait_or_kill w maxD).panicked = none)
    (_hlong : maxD < w.natExit) :
    (wait_or_kill w maxD).killTimes = [maxD] ∧
    (wait_or_kill w maxD).childRunningAfter = false := by
  cases hk : w.killOk
  · simp [wait_or_kill, hspawn, hk] at hret
  · simp [wait_or_kill, hspawn, hk]

theorem kill_at_deadline_witness :
    (worldC1.spawnOk = true ∧ (wait_or_kill worldC1 2).panicked = none ∧
      2 < worldC1.natExit) ∧
    ((wait_or_kill worldC1 2).killTimes = [2] ∧
      (wait_or_kill worldC1 2).childRunningAfter = false) :=
  ⟨⟨rfl, rfl, by decide⟩, kill_at_deadline worldC1 2 rfl rfl (by decide)⟩

/-- A run whose child writes ten mebibytes into the pipe by the deadline
(far more than any pipe buffer holds) and would run for 10 time units,
against a deadline of 1. -/
def worldC2 : ChildWorld :=
  { spawnOk := true, killOk := true, natExit := 10, exitCode := 0,
    outBytes := List.replicate 3 104, writtenBy := fun _ => 10485760,
    readErrAt := none }

/-- C2: the deadline path never depends on the pipe: for every run whose child
runs past the deadline — including one that has written more bytes than any
pipe buffer capacity `bufCap` holds — the kill is issued exactly at the
deadline, and replacing the child's output schedule and output bytes by any
others leaves the kill times unchanged (the killer thread only sleeps and
kills; it never touches the pipe). -/
theorem kill_time_independent_of_output (w : ChildWorld) (maxD bufCap : Nat)
    (hspawn : w.spawnOk = true) (_hlong : maxD < w.natExit)
    (_hbig : bufCap < w.writtenBy maxD) :
    (wait_or_kill w maxD).killTimes = [maxD] ∧
    ∀ (f : Nat → Nat) (bs : List Byte),
      (wait_or_kill { w with writtenBy := f, outBytes := bs } maxD).killTimes =
        (wait_or_kill w maxD).killTimes := by
  constructor
  · simp [wait_or_kill, hspawn]
  · intro f bs
    simp [wait_or_kill, hspawn]

theorem kill_time_independent_of_output_witness :
    (worldC2.spawnOk = true ∧ 1 < worldC2.natExit ∧
      65536 < worldC2.writtenBy 1) ∧
    (wait_or_kill worldC2 1).killTimes = [1] :=
  ⟨⟨rfl, by decide, by decide⟩,
    (kill_time_independent_of_output worldC2 1 65536 rfl (by decide)
      (by decide)).1⟩

/-- A run whose child exits on its own at time 1 with exit code 0, against a
deadline of 5. -/
def worldC3 : ChildWorld :=
  { spawnOk := true, killOk := true, natExit := 1, exitCode := 0,
    outBytes := [104, 105], writtenBy := fun _ => 2, readErrAt := none }

/-- C3 (counterexample): at a run whose child exits (code 0) well before the
deadline, the source returns no outcome record at all, and it does force
termination — the killer thread unconditionally issues a kill at the deadline —
so the claim as stated fails. -/
theorem exit_before_deadline_outcome_cex :
    ¬ ((∃ oc, returned_outcome (wait_or_kill worldC3 5) = some oc ∧
          oc.timed_out = false ∧ oc.exit_status = some worldC3.exitCode) ∧
       (wait_or_kill worldC3 5).killTimes = []) := by
  intro h
  obtain ⟨oc, hoc, _⟩ := h.1
  simp [returned_outcome] at hoc

/-- C3 (amended): when the child exits at or before the deadline, the killer
thread still sleeps the full deadline and issues a kill; the `child.wait()` it
then performs observes the child's true exit code — but only prints it: the
caller receives no outcome record. -/
theorem exit_before_deadline (w : ChildWorld) (maxD : Nat)
    (hspawn : w.spawnOk = true) (hkill : w.killOk = true)
    (hearly : w.natExit ≤ maxD) :
    (wait_or_kill w maxD).waitedStatus = some (.exited w.exitCode) ∧
    (wait_or_kill w maxD).killTimes = [maxD] ∧
    returned_outcome (wait_or_kill w maxD) = none := by
  simp [wait_or_kill, hspawn, hkill, hearly, returned_outcome]

theorem exit_before_deadline_witness :
    (worldC3.spawnOk = true ∧ worldC3.killOk = true ∧ worldC3.natExit ≤ 5) ∧
    (wait_or_kill worldC3 5).waitedStatus = some (.exited worldC3.exitCode) :=
  ⟨⟨rfl, rfl, by decide⟩, (exit_before_deadline worldC3 5 rfl rfl (by decide)).1⟩

/-- C4: whatever the reads deliver, the bytes the drain loop observes are the
concatenation, in order, of exactly the chunks of the reads it consumed — no
byte fabricated, reordered or silently dropped — and, provided the channel
delivers the child's byte stream in order (the concatenation of all delivered
chunks is an initial segment of the full output), the captured bytes are a
byte-exact prefix of the output the child would have produced had it run to
completion. -/
theorem drain_byte_exact_capture (reads : List ReadResult) (full : List Byte)
    (hdeliver : initSeg ((reads.map chunkOf).flatten) full) :
    initSeg (wait_on_output reads) full ∧
    wait_on_output reads = (consumedChunks reads).flatten := by
  refine ⟨?_, wait_on_output_eq_join reads⟩
  rw [wait_on_output_eq_join]
  exact initSeg_trans (consumed_initSeg_all reads) hdeliver

theorem drain_byte_exact_capture_witness :
    initSeg (([ReadResult.ok [1, 2], .ok [3], .err, .ok [9]].map chunkOf).flatten)
      [1, 2, 3, 9, 9] ∧
    initSeg (wait_on_output [ReadResult.ok [1, 2], .ok [3], .err, .ok [9]])
      [1, 2, 3, 9, 9] :=
  ⟨⟨[9], rfl⟩,
    (drain_byte_exact_capture [ReadResult.ok [1, 2], .ok [3], .err, .ok [9]]
      [1, 2, 3, 9, 9] ⟨[9], rfl⟩).1⟩

/-- C5: the drain loop reads exactly until the first read that returns zero
bytes or an error: it consumes every non-stopping read before that event, it
stops there (everything after the first stopping read is ignored), and it stops
on no other condition — and since it is a total function of the read sequence,
a channel that eventually yields such an event makes the drain terminate. -/
theorem drain_stops_exactly_at_first_stop (pre : List ReadResult)
    (r0 : ReadResult) (post : List ReadResult)
    (hpre : ∀ r ∈ pre, isStop r = false) (hstop : isStop r0 = true) :
    wait_on_output (pre ++ r0 :: post) = (pre.map chunkOf).flatten ∧
    consumedChunks (pre ++ r0 :: post) = pre.map chunkOf := by
  induction pre with
  | nil =>
    cases r0 with
    | err => simp [wait_on_output, consumedChunks]
    | ok c =>
      simp only [isStop] at hstop
      simp [wait_on_output, consumedChunks, hstop]
  | cons r rest ih =>
    cases r with
    | err =>
      exact absurd (hpre .err (List.mem_cons_self _ _)) (by simp [isStop])
    | ok c =>
      have hc : c.isEmpty = false := by
        have h := hpre (.ok c) (List.mem_cons_self _ _)
        simpa [isStop] using h
      have ih' := ih fun r hr => hpre r (List.mem_cons_of_mem _ hr)
      simp [wait_on_output, consumedChunks, chunkOf, hc, ih'.1, ih'.2]

theorem drain_stops_exactly_at_first_stop_witness :
    ((∀ r ∈ [ReadResult.ok [5]], isStop r = false) ∧ isStop .err = true) ∧
    wait_on_output ([ReadResult.ok [5]] ++ .err :: [ReadResult.ok [6]]) =
      ([ReadResult.ok [5]].map chunkOf).flatten :=
  ⟨⟨by decide, by decide⟩,
    (drain_stops_exactly_at_first_stop [ReadResult.ok [5]] .err
      [ReadResult.ok [6]] (by decide) (by decide)).1⟩

/-- A run whose pipe read fails at time 1 while the child (which would run for
10 time units) is still writing, against a deadline of 5. -/
def worldC6 : ChildWorld :=
  { spawnOk := true, killOk := true, natExit := 10, exitCode := 0,
    outBytes := [7, 7, 7], writtenBy := fun t => t, readErrAt := some 1 }

/-- C6 (counterexample): at a run whose pipe read fails at time 1 (deadline 5),
the source surfaces no `OutputReadError` carrying the partial output — it
returns `()` and the only kill is the timer thread's at the deadline — so the
claim as stated fails. -/
theorem read_error_surfaced_cex :
    ¬ ((wait_or_kill worldC6 5).readErrorHit = true ∧
       (wait_or_kill worldC6 5).killTimes = [1] ∧
       returned_error (wait_or_kill worldC6 5) =
         some (.outputReadError (wait_or_kill worldC6 5).captured)) := by
  intro h
  simp [returned_error] at h

/-- C6 (amended): on a read error mid-drain the loop silently stops, keeping
exactly the partial output read before the failure; no terminate is attempted
in response (the only kill is the timer thread's, at the deadline) and no
error value is surfaced to the caller. -/
theorem read_error_stops_drain_silently (w : ChildWorld) (maxD t : Nat)
    (hspawn : w.spawnOk = true) (herr : w.readErrAt = some t)
    (hbefore : t < stopTimeOf w maxD) :
    (wait_or_kill w maxD).readErrorHit = true ∧
    (wait_or_kill w maxD).drainEnd = some t ∧
    (wait_or_kill w maxD).captured = w.outBytes.take (w.writtenBy t) ∧
    (wait_or_kill w maxD).killTimes = [maxD] ∧
    returned_error (wait_or_kill w maxD) = none := by
  simp [wait_or_kill, drainEndOf, hspawn, herr, returned_error, hbefore,
    Nat.min_eq_left (Nat.le_of_lt hbefore)]

theorem read_error_stops_drain_silently_witness :
    (worldC6.spawnOk = true ∧ worldC6.readErrAt = some 1 ∧
      1 < stopTimeOf worldC6 5) ∧
    (wait_or_kill worldC6 5).captured =
      worldC6.outBytes.take (worldC6.writtenBy 1) :=
  ⟨⟨rfl, rfl, by decide⟩,
    (read_error_stops_drain_silently worldC6 5 1 rfl rfl (by decide)).2.2.1⟩

/-- A run where the OS refuses to create the process. -/
def worldC7 : ChildWorld :=
  { spawnOk := false, killOk := true, natExit := 0, exitCode := 0,
    outBytes := [], writtenBy := fun _ => 0, readErrAt := none }

/-- C7 (counterexample): spawning a nonexistent executable does not return a
`SpawnError` value to the caller — the source panics through `expect` instead
of returning a result — so the claim as stated fails at this input. -/
theorem spawn_failure_returns_error_cex :
    ¬ (returned_error (wait_or_kill worldC7 2) = some .spawnError) := by
  simp [returned_error]

/-- C7 (amended): when the OS refuses to create the process, `wait_or_kill`
panics immediately with `"Cannot spawn child"`; spawn is attempted exactly once
(no retry), no kill is ever issued and the drain never runs, so no process
handle exists and the supervision phase is never entered. -/
theorem spawn_failure_panics (w : ChildWorld) (maxD : Nat)
    (hspawn : w.spawnOk = false) :
    (wait_or_kill w maxD).panicked = some "Cannot spawn child" ∧
    (wait_or_kill w maxD).spawnCalls = 1 ∧
    (wait_or_kill w maxD).killTimes = [] ∧
    (wait_or_kill w maxD).drainEnd = none := by
  simp [wait_or_kill, hspawn]

theorem spawn_failure_panics_witness :
    worldC7.spawnOk = false ∧
    ((wait_or_kill worldC7 2).panicked = some "Cannot spawn child" ∧
      (wait_or_kill worldC7 2).spawnCalls = 1 ∧
      (wait_or_kill worldC7 2).killTimes = [] ∧
      (wait_or_kill worldC7 2).drainEnd = none) :=
  ⟨rfl, spawn_failure_panics worldC7 2 rfl⟩

/-- A run where the OS rejects the kill request (child would run for 10 time
units, deadline 2). -/
def worldC8 : ChildWorld :=
  { spawnOk := true, killOk := false, natExit := 10, exitCode := 0,
    outBytes := [], writtenBy := fun _ => 0, readErrAt := none }

/-- C8 (counterexample): at a run where the OS rejects the kill, supervision
does not proceed to status collection: the killer thread's `expect` panics
before `child.wait()` and the join re-panics in `wait_or_kill`, so the claim
as stated fails. -/
theorem kill_failure_informational_cex :
    ¬ ((wait_or_kill worldC8 2).panicked = none ∧
       ∃ s, (wait_or_kill worldC8 2).waitedStatus = some s) := by
  intro h
  exact absurd h.1 (by decide)

/-- C8 (amended): a rejected kill is fatal rather than informational: the
killer thread panics with `"Cannot kill child process"` before reaching
`child.wait()`, no exit status is collected, the child is never reaped, and
`wait_or_kill` panics at the join (`"join fail"`) instead of returning an
outcome. -/
theorem kill_failure_panics (w : ChildWorld) (maxD : Nat)
    (hspawn : w.spawnOk = true) (hkill : w.killOk = false) :
    (wait_or_kill w maxD).panicked = some "join fail" ∧
    (wait_or_kill w maxD).waitedStatus = none ∧
    (wait_or_kill w maxD).reapTime = none ∧
    (wait_or_kill w maxD).returnTime = none := by
  simp [wait_or_kill, hspawn, hkill]

theorem kill_failure_panics_witness :
    (worldC8.spawnOk = true ∧ worldC8.killOk = false) ∧
    ((wait_or_kill worldC8 2).panicked = some "join fail" ∧
      (wait_or_kill worldC8 2).waitedStatus = none ∧
      (wait_or_kill worldC8 2).reapTime = none ∧
      (wait_or_kill worldC8 2).returnTime = none) :=
  ⟨⟨rfl, rfl⟩, kill_failure_panics worldC8 2 rfl rfl⟩

/-- C9: on every run, every kill that is issued happens at or after the
deadline — never before it, and never speculatively (the only kill site is the
timer thread, after its full sleep) — and at most one kill is ever issued per
supervised process. -/
theorem kill_only_after_deadline_once (w : ChildWorld) (maxD : Nat) :
    ((wait_or_kill w maxD).killTimes.all fun t => decide (maxD ≤ t)) = true ∧
    (wait_or_kill w maxD).killTimes.length ≤ 1 := by
  cases hs : w.spawnOk <;> simp [wait_or_kill, hs]

/-- A run whose child exits on its own at time 1, against a deadline of 3. -/
def worldC10 : ChildWorld :=
  { spawnOk := true, killOk := true, natExit := 1, exitCode := 0,
    outBytes := [104], writtenBy := fun _ => 1, readErrAt := none }

/-- C10: on every non-panicking run the killer thread is joined before
`wait_or_kill` returns: the kill (at the deadline) and the subsequent
`child.wait()` reap are always executed before the function returns — even
when the child exited on its own before the deadline — and the return time is
never earlier than the full deadline. -/
theorem join_bounds_return (w : ChildWorld) (maxD : Nat)
    (hret : (wait_or_kill w maxD).panicked = none) :
    (wait_or_kill w maxD).killTimes = [maxD] ∧
    (wait_or_kill w maxD).reapTime = some maxD ∧
    ∃ r, (wait_or_kill w maxD).returnTime = some r ∧ maxD ≤ r := by
  cases hs : w.spawnOk
  · simp [wait_or_kill, hs] at hret
  · cases hk : w.killOk
    · simp [wait_or_kill, hs, hk] at hret
    · refine ⟨by simp [wait_or_kill, hs], by simp [wait_or_kill, hs, hk], ?_⟩
      exact ⟨max (drainEndOf w maxD) maxD, by simp [wait_or_kill, hs, hk],
        Nat.le_max_right _ _⟩

theorem join_bounds_return_witness :
    (wait_or_kill worldC10 3).panicked = none ∧
    ((wait_or_kill worldC10 3).killTimes = [3] ∧
      (wait_or_kill worldC10 3).reapTime = some 3 ∧
      ∃ r, (wait_or_kill worldC10 3).returnTime = some r ∧ 3 ≤ r) :=
  ⟨rfl, join_bounds_return worldC10 3 rfl⟩
